import Mathlib

/-!
Verification of the notification-to-fanout bridge in
`src/realtime-server.ts` (class `RealtimeServer`).

Part 1 models the decode/route/emit pipeline: JavaScript values produced
by `JSON.parse`, the `handlePgNotification` dispatch and the three
`handleConversion*Change` handlers, together with the unknown-channel
fallback and the `test_channel` branch.

Part 2 models the connection lifecycle (`setupPgNotifications`,
`reconnectPg`, `close`) as a small-step state machine whose steps are the
suspension points of the async code; the environment chooses the outcome
of each external call (connect, LISTEN query, end) and when error events
and timers fire.
-/

/-- JavaScript values as they occur in the notification pipeline.
`JSON.parse` never yields `undef`; `undef` arises from reading an absent
object field, as in the destructuring at the top of
`handlePgNotification`. -/
inductive Js where
  | undef : Js
  | null : Js
  | bool : Bool → Js
  | num : Int → Js
  | str : String → Js
  | arr : List Js → Js
  | obj : List (String × Js) → Js

/-- Reading field `k` of a JavaScript value that is neither `null` nor
`undefined`: an object yields the field value or `undefined`; any other
value (string, number, boolean, array) yields `undefined`. -/
def jsField (v : Js) (k : String) : Js :=
  match v with
  | Js.obj fs =>
    match fs.find? (fun q => q.1 == k) with
    | some q => q.2
    | none => Js.undef
  | _ => Js.undef

/-- JavaScript truthiness, as tested by `if (data.conversionId)`. -/
def truthy : Js → Bool
  | Js.undef => false
  | Js.null => false
  | Js.bool b => b
  | Js.num n => n != 0
  | Js.str s => s != ""
  | Js.arr _ => true
  | Js.obj _ => true

mutual

/-- JavaScript `String(v)` coercion, used by the template literal
`conversion-$\x7bdata.conversionId\x7d`. -/
def jsToString : Js → String
  | Js.undef => "undefined"
  | Js.null => "null"
  | Js.bool b => if b then "true" else "false"
  | Js.num n => toString n
  | Js.str s => s
  | Js.arr xs => String.intercalate "," (jsElemStrings xs)
  | Js.obj _ => "[object Object]"

/-- Stringification of array elements: `null` and `undefined` elements
become the empty string inside `Array.prototype.join`. -/
def jsElemStrings : List Js → List String
  | [] => []
  | Js.undef :: xs => "" :: jsElemStrings xs
  | Js.null :: xs => "" :: jsElemStrings xs
  | v :: xs => jsToString v :: jsElemStrings xs

end

/-- JavaScript strict equality against a string literal, as in
`operation === "DELETE"`: true exactly when the value is that string. -/
def isStrEq (v : Js) (s : String) : Bool :=
  match v with
  | Js.str t => t == s
  | _ => false

/-- Target of a Socket.IO emission: `io.to(room).emit(...)` reaches the
members of one room, `io.emit(...)` reaches every connected client. -/
inductive EmitTarget where
  | all : EmitTarget
  | room : String → EmitTarget
deriving DecidableEq

/-- Payload shapes the bridge emits: the `postgres_changes` record
(with the optional `channel` field that only the unknown-channel
fallback adds) and the `test_notification` message wrapper. -/
inductive EmitPayload where
  | pgChange (event : Js) (schema : String) (table : Js)
      (new : Js) (old : Js) (channel : Option String) : EmitPayload
  | testMsg (message : Js) : EmitPayload

/-- One outward Socket.IO emission. -/
structure Emit where
  target : EmitTarget
  eventName : String
  payload : EmitPayload

/-- The `postgres_changes` record built by the three conversion
handlers: `new` is `null` for a DELETE, `old` is `null` for an INSERT,
both otherwise carry the decoded `data` value. -/
def changePayload (operation : Js) (table : String) (data : Js) : EmitPayload :=
  EmitPayload.pgChange operation "public" (Js.str table)
    (if isStrEq operation "DELETE" then Js.null else data)
    (if isStrEq operation "INSERT" then Js.null else data)
    none

/-- `handleConversionMessageChange`: emit to the static room
`conversion-messages`; then, if `data.conversionId` is truthy, also emit
to the derived room. Reading `conversionId` off a `null`/`undefined`
`data` throws, which the Boolean flag records (the static emission has
already happened at that point). -/
def handleConversionMessageChange (operation data : Js) : List Emit × Bool :=
  let e1 : Emit :=
    { target := EmitTarget.room "conversion-messages"
      eventName := "postgres_changes"
      payload := changePayload operation "ConversionMessage" data }
  match data with
  | Js.undef => ([e1], true)
  | Js.null => ([e1], true)
  | d =>
    if truthy (jsField d "conversionId") then
      ([e1,
        { target := EmitTarget.room ("conversion-" ++ jsToString (jsField d "conversionId"))
          eventName := "postgres_changes"
          payload := changePayload operation "ConversionMessage" d }], false)
    else ([e1], false)

/-- `handleConversionChange`: a single emission to the static room
`conversions`; the handler never reads `data` fields, so it never
throws. -/
def handleConversionChange (operation data : Js) : List Emit × Bool :=
  ([{ target := EmitTarget.room "conversions"
      eventName := "postgres_changes"
      payload := changePayload operation "Conversion" data }], false)

/-- `handleConversionStepChange`: like the message handler, with static
room `conversion-steps` and table `ConversionStep`. -/
def handleConversionStepChange (operation data : Js) : List Emit × Bool :=
  let e1 : Emit :=
    { target := EmitTarget.room "conversion-steps"
      eventName := "postgres_changes"
      payload := changePayload operation "ConversionStep" data }
  match data with
  | Js.undef => ([e1], true)
  | Js.null => ([e1], true)
  | d =>
    if truthy (jsField d "conversionId") then
      ([e1,
        { target := EmitTarget.room ("conversion-" ++ jsToString (jsField d "conversionId"))
          eventName := "postgres_changes"
          payload := changePayload operation "ConversionStep" d }], false)
    else ([e1], false)

/-- `handlePgNotification`: destructure
`const (operation, table, data) = payload` — which throws when the
parsed payload is `null` (or `undefined`), before any branch runs —
then dispatch on the channel name exactly as the `switch` does, with the
pass-through fallback for unknown channels. The Boolean records whether
the handler threw (the caller catches it). -/
def handlePgNotification (channel : String) (payload : Js) : List Emit × Bool :=
  match payload with
  | Js.undef => ([], true)
  | Js.null => ([], true)
  | p =>
    let operation := jsField p "operation"
    let table := jsField p "table"
    let data := jsField p "data"
    if channel = "conversion_message_changes" then
      handleConversionMessageChange operation data
    else if channel = "conversion_changes" then
      handleConversionChange operation data
    else if channel = "conversion_step_changes" then
      handleConversionStepChange operation data
    else if channel = "test_channel" then
      ([{ target := EmitTarget.all
          eventName := "test_notification"
          payload := EmitPayload.testMsg p }], false)
    else
      ([{ target := EmitTarget.room channel
          eventName := "postgres_changes"
          payload := EmitPayload.pgChange
            (if truthy operation then operation else Js.str "UNKNOWN") "public"
            (if truthy table then table else Js.str "unknown")
            data Js.null (some channel) }], false)

/-- The rooms targeted by a list of emissions (an `io.emit` broadcast
targets no room). -/
def topicsOf (es : List Emit) : List String :=
  es.filterMap (fun e =>
    match e.target with
    | EmitTarget.room r => some r
    | EmitTarget.all => none)

/-- A raw Postgres notification as handed to the `notification`
listener: channel name and the optional raw payload text. -/
structure RawMsg where
  channel : String
  payload : Option String
deriving DecidableEq

/-- `msg.payload || "\x7b\x7d"`: a missing or empty payload string is
replaced by the empty-object text before parsing. -/
def effectivePayload (m : RawMsg) : String :=
  match m.payload with
  | none => "\x7b\x7d"
  | some s => if s = "" then "\x7b\x7d" else s

/-- The `notification` listener installed in `setupPgNotifications`:
parse the payload and dispatch, with the surrounding try/catch turning
any throw (parse failure, or a throw inside `handlePgNotification`) into
a logged diagnostic — the Boolean — and an otherwise normal return.
`parse` stands for `JSON.parse`, an external call that either throws or
returns a value. -/
def onNotification (parse : String → Except Unit Js) (m : RawMsg) : List Emit × Bool :=
  match parse (effectivePayload m) with
  | Except.error _ => ([], true)
  | Except.ok p => handlePgNotification m.channel p

/-- Processing a sequence of notifications: the listener is invoked once
per notification, each invocation independent of the others. -/
def processAll (parse : String → Except Unit Js) (msgs : List RawMsg) :
    List (List Emit × Bool) :=
  msgs.map (onNotification parse)

/-- Accessor: the `event` field of an emitted `postgres_changes`
record. -/
def emitEvent (e : Emit) : Option Js :=
  match e.payload with
  | EmitPayload.pgChange ev _ _ _ _ _ => some ev
  | _ => none

/-- Accessor: the `new` field of an emitted `postgres_changes`
record. -/
def emitNew (e : Emit) : Option Js :=
  match e.payload with
  | EmitPayload.pgChange _ _ _ n _ _ => some n
  | _ => none

/-- Accessor: the `old` field of an emitted `postgres_changes`
record. -/
def emitOld (e : Emit) : Option Js :=
  match e.payload with
  | EmitPayload.pgChange _ _ _ _ o _ => some o
  | _ => none

/-- The four channel names registered by the LISTEN statements in
`setupPgNotifications`, in source order; they are also exactly the
channels the `switch` in `handlePgNotification` recognizes. -/
def channelNames : List String :=
  ["conversion_message_changes", "conversion_changes",
   "conversion_step_changes", "test_channel"]

/-!
Part 2: the connection lifecycle.

`setupPgNotifications` and `reconnectPg` are async functions; the model
cuts them at their `await` points into program counters. A scheduler
action runs one pending continuation (the environment choosing whether
the awaited external call succeeds), fires one elapsed timer, delivers
one `error` event from the Postgres client, or invokes `close`. The
synchronous prefix of each function up to its first `await` runs when
the corresponding task is first scheduled; consecutive synchronous
statements are kept inside one step.
-/

/-- Lifecycle phase of one `pg.Client` object: never connected,
connect in flight, connected, or ended. `connect()` resolves only when
called on a fresh client (calling it again rejects with "Client has
already been connected"); `end()` moves any client to `ended`. -/
inductive CPhase where
  | fresh : CPhase
  | connecting : CPhase
  | connected : CPhase
  | ended : CPhase
deriving DecidableEq

/-- One `pg.Client` object: its phase, the channels registered by
LISTEN queries, and how many `notification` / `error` listeners
`setupPgNotifications` has attached to it. -/
structure ClientSt where
  phase : CPhase
  listens : List String
  notifHandlers : Nat
  errHandlers : Nat
deriving DecidableEq

/-- `new Client(\x7bconnectionString: ...\x7d)`. -/
def newClient : ClientSt :=
  { phase := CPhase.fresh, listens := [], notifHandlers := 0, errHandlers := 0 }

/-- Program counters of the in-flight async invocations.
`setupConnect` is the start of `setupPgNotifications` (about to call
`this.pgClient.connect()`); `setupAwaitConnect cid` is suspended on that
connect; `setupListen j` is about to run the j-th LISTEN query on the
then-current client; `setupHandlers` is the synchronous tail attaching
the `notification` and `error` listeners. `reconnectEnd` is the start of
`reconnectPg` (about to await `this.pgClient.end()`); `reconnectNew`
resumes after the end: it constructs the replacement `Client` and calls
`setupPgNotifications`. -/
inductive TaskPc where
  | setupConnect : TaskPc
  | setupAwaitConnect : Nat → TaskPc
  | setupListen : Nat → TaskPc
  | setupHandlers : TaskPc
  | reconnectEnd : TaskPc
  | reconnectNew : TaskPc
deriving DecidableEq

/-- Which retry a pending `setTimeout(..., 5000)` will run: the one in
the catch of `setupPgNotifications` re-invokes `setupPgNotifications`;
the one in the catch of `reconnectPg` re-invokes `reconnectPg`. -/
inductive TimerKind where
  | tSetup : TimerKind
  | tReconnect : TimerKind
deriving DecidableEq

/-- A pending `setTimeout`, with its delay in milliseconds. -/
structure SrvTimer where
  kind : TimerKind
  delayMs : Nat
deriving DecidableEq

/-- The mutable state of one `RealtimeServer` instance: the `Client`
objects created so far (index = creation order), which of them
`this.pgClient` is, the suspended async invocations, the pending
timers, whether the HTTP server was closed, and how many errors were
logged by catch blocks. -/
structure SrvState where
  clients : List ClientSt
  current : Nat
  tasks : List TaskPc
  timers : List SrvTimer
  httpClosed : Bool
  errorsLogged : Nat
deriving DecidableEq

/-- State at the end of the constructor: one fresh client, and the
constructor's `setupPgNotifications()` call pending. -/
def initSrvState : SrvState :=
  { clients := [newClient], current := 0, tasks := [TaskPc.setupConnect],
    timers := [], httpClosed := false, errorsLogged := 0 }

/-- A catch block that logs the error and schedules a retry:
`setTimeout(..., 5000)` with the given callback kind. Both retry sites
in the source use the literal delay 5000. -/
def srvSchedule (k : TimerKind) (s : SrvState) : SrvState :=
  { s with timers := s.timers ++ [{ kind := k, delayMs := 5000 }],
           errorsLogged := s.errorsLogged + 1 }

/-- End the client at index `i` (out-of-range leaves the list
unchanged). -/
def endClientAt (cs : List ClientSt) (i : Nat) : List ClientSt :=
  match cs.get? i with
  | none => cs
  | some c => cs.set i { c with phase := CPhase.ended }

/-- The continuation a fired timer schedules. -/
def timerTask : TimerKind → TaskPc
  | TimerKind.tSetup => TaskPc.setupConnect
  | TimerKind.tReconnect => TaskPc.reconnectEnd

/-- Run the task at index `i`, the environment reporting outcome `ok`
for the external call the task performs (ignored by purely synchronous
steps). Each failure path is the corresponding catch block: log and
schedule the retry timer. -/
def srvStepTask (s : SrvState) (i : Nat) (ok : Bool) : Option SrvState :=
  match s.tasks.get? i with
  | none => none
  | some TaskPc.setupConnect =>
    match s.clients.get? s.current with
    | none => none
    | some cur =>
      match cur.phase with
      | CPhase.fresh =>
        some { s with
          clients := s.clients.set s.current { cur with phase := CPhase.connecting },
          tasks := s.tasks.set i (TaskPc.setupAwaitConnect s.current) }
      | _ => some (srvSchedule TimerKind.tSetup { s with tasks := s.tasks.eraseIdx i })
  | some (TaskPc.setupAwaitConnect cid) =>
    match s.clients.get? cid with
    | none => none
    | some c =>
      match ok, c.phase with
      | true, CPhase.connecting =>
        some { s with
          clients := s.clients.set cid { c with phase := CPhase.connected },
          tasks := s.tasks.set i (TaskPc.setupListen 0) }
      | _, _ => some (srvSchedule TimerKind.tSetup { s with tasks := s.tasks.eraseIdx i })
  | some (TaskPc.setupListen j) =>
    match s.clients.get? s.current with
    | none => none
    | some cur =>
      match ok, cur.phase with
      | true, CPhase.connected =>
        some { s with
          clients := s.clients.set s.current
            { cur with listens := cur.listens ++ [channelNames.getD j ""] },
          tasks := s.tasks.set i
            (if j + 1 < 4 then TaskPc.setupListen (j + 1) else TaskPc.setupHandlers) }
      | _, _ => some (srvSchedule TimerKind.tSetup { s with tasks := s.tasks.eraseIdx i })
  | some TaskPc.setupHandlers =>
    match s.clients.get? s.current with
    | none => none
    | some cur =>
      some { s with
        clients := s.clients.set s.current
          { cur with notifHandlers := cur.notifHandlers + 1,
                     errHandlers := cur.errHandlers + 1 },
        tasks := s.tasks.eraseIdx i }
  | some TaskPc.reconnectEnd =>
    match s.clients.get? s.current with
    | none => none
    | some cur =>
      match ok with
      | true =>
        some { s with
          clients := s.clients.set s.current { cur with phase := CPhase.ended },
          tasks := s.tasks.set i TaskPc.reconnectNew }
      | false =>
        some (srvSchedule TimerKind.tReconnect { s with tasks := s.tasks.eraseIdx i })
  | some TaskPc.reconnectNew =>
    some { s with
      clients := s.clients ++ [newClient],
      current := s.clients.length,
      tasks := s.tasks.set i TaskPc.setupConnect }

/-- Scheduler / environment actions. -/
inductive SrvAct where
  | runTask : Nat → Bool → SrvAct
  | fireTimer : Nat → SrvAct
  | pgError : Nat → SrvAct
  | close : Bool → SrvAct

/-- One step of the lifecycle. `fireTimer i`: the pending timeout
elapses and its callback is invoked. `pgError cid`: a connected client
with attached `error` listeners emits an error; each listener invokes
`this.reconnectPg()`, starting that many reconnect invocations.
`close ok`: `close()` runs to completion — `await this.pgClient.end()`
with outcome `ok`, then (on success) `this.httpServer.close()`; a
rejection is caught and logged, and in neither case does `close` touch
the pending timers. -/
def srvStep (s : SrvState) (a : SrvAct) : Option SrvState :=
  match a with
  | SrvAct.runTask i ok => srvStepTask s i ok
  | SrvAct.fireTimer i =>
    match s.timers.get? i with
    | none => none
    | some t =>
      some { s with timers := s.timers.eraseIdx i,
                    tasks := s.tasks ++ [timerTask t.kind] }
  | SrvAct.pgError cid =>
    match s.clients.get? cid with
    | none => none
    | some c =>
      if c.errHandlers ≥ 1 ∧ c.phase = CPhase.connected then
        some { s with tasks := s.tasks ++ List.replicate c.errHandlers TaskPc.reconnectEnd }
      else none
  | SrvAct.close ok =>
    match ok with
    | true => some { s with clients := endClientAt s.clients s.current, httpClosed := true }
    | false => some { s with errorsLogged := s.errorsLogged + 1 }

/-- Run a sequence of scheduler actions. -/
def srvRun (s : SrvState) : List SrvAct → Option SrvState
  | [] => some s
  | a :: as =>
    match srvStep s a with
    | none => none
    | some s2 => srvRun s2 as

/-- States reachable from the constructor state. -/
def SrvReachable (s : SrvState) : Prop :=
  ∃ acts : List SrvAct, srvRun initSrvState acts = some s

/-- Invoking `setupPgNotifications()` from outside (it is an async
function: the invocation becomes a pending continuation). -/
def invokeSetup (s : SrvState) : SrvState :=
  { s with tasks := s.tasks ++ [TaskPc.setupConnect] }

/-- Number of clients whose underlying connection is live. -/
def countConnected (s : SrvState) : Nat :=
  (s.clients.filter (fun c => decide (c.phase = CPhase.connected))).length

/-- The seven scheduler steps that take the constructor state to the
fully Listening state: connect initiation, connect resolution, the four
LISTEN queries, and the listener registrations. -/
def actsListen : List SrvAct :=
  [SrvAct.runTask 0 true, SrvAct.runTask 0 true, SrvAct.runTask 0 true,
   SrvAct.runTask 0 true, SrvAct.runTask 0 true, SrvAct.runTask 0 true,
   SrvAct.runTask 0 true]

/-- Payload refuting C1 as stated: `entityData` contains the owning-id
field `conversionId` with value `""` (the empty string, a JSON value
the database can send), yet the code guards the derived emission with
JavaScript truthiness (`if (data.conversionId)`), so no derived topic
`conversion-` is broadcast to. -/
def c1Payload : Js :=
  Js.obj [("operation", Js.str "UPDATE"),
          ("data", Js.obj [("conversionId", Js.str "")])]

/-- A DELETE notification for the unknown-channel fallback path. -/
def c3Payload : Js :=
  Js.obj [("operation", Js.str "DELETE"), ("data", Js.obj [("x", Js.str "1")])]

/-- A payload with no `operation` field at all. -/
def c5Payload : Js := Js.obj [("data", Js.obj [])]

/-- A concrete stand-in for `JSON.parse`: throws on the text
`"not json"`, succeeds otherwise. -/
def parseW : String → Except Unit Js :=
  fun s =>
    if s = "not json" then Except.error ()
    else Except.ok (Js.obj [("operation", Js.str "INSERT")])

/-- The malformed and well-formed notifications of the C4 witness. -/
def badMsg : RawMsg := { channel := "conversion_changes", payload := some "not json" }

/-- The well-formed follow-up notification on the same channel. -/
def goodMsg : RawMsg := { channel := "conversion_changes", payload := some "ok" }

/-- Every pending timer in the state was scheduled with the fixed
5000 ms delay. -/
def timersAll5000 (s : SrvState) : Prop :=
  ∀ t ∈ s.timers, t.delayMs = 5000

/-- Trace: reach Listening, then one connection-level error. -/
def actsImmediate : List SrvAct := actsListen ++ [SrvAct.pgError 0]

/-- Trace: reach Listening, receive two error events from the source
client, and let the two resulting reconnect chains each fail its
connect attempt. -/
def actsTwoTimers : List SrvAct :=
  actsListen ++
    [SrvAct.pgError 0, SrvAct.pgError 0,
     SrvAct.runTask 0 true, SrvAct.runTask 1 true, SrvAct.runTask 0 true,
     SrvAct.runTask 0 true, SrvAct.runTask 0 false, SrvAct.runTask 0 true,
     SrvAct.runTask 0 true, SrvAct.runTask 0 false]

/-- Trace: a setup whose connect fails (leaving one pending 5-second
retry timer), then an explicit `close()`. -/
def actsCloseA : List SrvAct :=
  [SrvAct.runTask 0 true, SrvAct.runTask 0 false, SrvAct.close true]

/-- The same trace continued: the pending timer fires after the close
and its reconnect attempt executes (failing on the ended client and
rescheduling yet another timer). -/
def actsCloseB : List SrvAct :=
  actsCloseA ++ [SrvAct.fireTimer 0, SrvAct.runTask 0 true]

/-- Trace: reach Listening; the source client emits two error events;
the two resulting `reconnectPg` invocations interleave — the second
chain ends the already-ended client again, creates client 1 and
connects it, then the first chain resumes, creates client 2 and
connects it as well. -/
def actsTwoConnections : List SrvAct :=
  actsListen ++
    [SrvAct.pgError 0, SrvAct.pgError 0,
     SrvAct.runTask 0 true, SrvAct.runTask 1 true, SrvAct.runTask 1 true,
     SrvAct.runTask 1 true, SrvAct.runTask 1 true, SrvAct.runTask 0 true,
     SrvAct.runTask 0 true, SrvAct.runTask 0 true]

/-- The state after initiating the first connect: reachable in one
step; its single task is suspended on the connect. -/
def sAwaitW : SrvState :=
  { clients := [{ phase := CPhase.connecting, listens := [],
                  notifHandlers := 0, errHandlers := 0 }],
    current := 0, tasks := [TaskPc.setupAwaitConnect 0], timers := [],
    httpClosed := false, errorsLogged := 0 }

/-- A state with one reconnect suspended at its `end()` and one at its
client construction, for witnessing C9. -/
def sRecW : SrvState :=
  { clients := [{ phase := CPhase.connected, listens := channelNames,
                  notifHandlers := 1, errHandlers := 1 }],
    current := 0, tasks := [TaskPc.reconnectEnd, TaskPc.reconnectNew],
    timers := [], httpClosed := false, errorsLogged := 0 }

example :
    topicsOf (handlePgNotification "conversion_changes"
      (Js.obj [("operation", Js.str "INSERT")])).1 = ["conversions"] := by
  decide

example :
    topicsOf (handlePgNotification "conversion_step_changes"
      (Js.obj [("operation", Js.str "UPDATE"),
               ("data", Js.obj [("conversionId", Js.str "c1")])])).1 =
      ["conversion-steps", "conversion-c1"] := by
  decide

example :
    srvRun initSrvState actsListen =
      some { clients := [{ phase := CPhase.connected, listens := channelNames,
                           notifHandlers := 1, errHandlers := 1 }],
             current := 0, tasks := [], timers := [], httpClosed := false,
             errorsLogged := 0 } := by
  decide

/-!
Helper lemmas: the emission lists of the two handlers that can add a
derived topic, in closed form.
-/

/-- The emissions of `handleConversionMessageChange`: the static-room
emission, followed by the derived-room emission exactly when
`data.conversionId` is truthy (reading a field of a `null` or
`undefined` value yields no truthy id — the handler throws after the
static emission in that case). -/
theorem handleConversionMessageChange_fst (op data : Js) :
    (handleConversionMessageChange op data).1 =
      { target := EmitTarget.room "conversion-messages",
        eventName := "postgres_changes",
        payload := changePayload op "ConversionMessage" data } ::
      (if truthy (jsField data "conversionId")
       then [{ target := EmitTarget.room
                 ("conversion-" ++ jsToString (jsField data "conversionId")),
               eventName := "postgres_changes",
               payload := changePayload op "ConversionMessage" data }]
       else []) := by
  cases data with
  | obj fs =>
    cases hc : truthy (jsField (Js.obj fs) "conversionId") <;>
      simp [handleConversionMessageChange, hc]
  | undef => rfl
  | null => rfl
  | bool b => rfl
  | num n => rfl
  | str s => rfl
  | arr xs => rfl

/-- The emissions of `handleConversionStepChange`, in the same
closed form. -/
theorem handleConversionStepChange_fst (op data : Js) :
    (handleConversionStepChange op data).1 =
      { target := EmitTarget.room "conversion-steps",
        eventName := "postgres_changes",
        payload := changePayload op "ConversionStep" data } ::
      (if truthy (jsField data "conversionId")
       then [{ target := EmitTarget.room
                 ("conversion-" ++ jsToString (jsField data "conversionId")),
               eventName := "postgres_changes",
               payload := changePayload op "ConversionStep" data }]
       else []) := by
  cases data with
  | obj fs =>
    cases hc : truthy (jsField (Js.obj fs) "conversionId") <;>
      simp [handleConversionStepChange, hc]
  | undef => rfl
  | null => rfl
  | bool b => rfl
  | num n => rfl
  | str s => rfl
  | arr xs => rfl

/-- Dispatch equation: the `switch` sends `conversion_message_changes`
notifications to `handleConversionMessageChange` with the destructured
`operation` and `data`. -/
theorem handlePgNotification_message (fs : List (String × Js)) :
    handlePgNotification "conversion_message_changes" (Js.obj fs) =
      handleConversionMessageChange (jsField (Js.obj fs) "operation")
        (jsField (Js.obj fs) "data") := rfl

/-- Dispatch equation for `conversion_step_changes`. -/
theorem handlePgNotification_step (fs : List (String × Js)) :
    handlePgNotification "conversion_step_changes" (Js.obj fs) =
      handleConversionStepChange (jsField (Js.obj fs) "operation")
        (jsField (Js.obj fs) "data") := rfl

/-!
Claim C1.
-/

/-- C1 counterexample: the decoded `entityData` of `c1Payload` contains
`conversionId` (with value `""`), but a `conversion_message_changes`
notification carrying it is broadcast to the static topic only — the
derived topic `conversion-` demanded by the claim is absent. -/
theorem c1_presence_not_sufficient_cex :
    jsField (jsField c1Payload "data") "conversionId" = Js.str "" ∧
    topicsOf (handlePgNotification "conversion_message_changes" c1Payload).1 =
      ["conversion-messages"] ∧
    "conversion-" ∉
      topicsOf (handlePgNotification "conversion_message_changes" c1Payload).1 := by
  refine ⟨rfl, rfl, ?_⟩
  decide

/-- C1 amended: for `conversion_message_changes` and
`conversion_step_changes` notifications whose decoded `entityData` has
owning-id field `conversionId` with a truthy value `k`, the broadcast
topics are exactly the static topic plus the derived topic
`conversion-<k>`; when `conversionId` is absent or present with a falsy
value (empty string, 0, null, false), only the static topic is
broadcast to. -/
theorem c1_derived_topic_routing :
    ∀ (fs dfs : List (String × Js)) (k : Js),
      jsField (Js.obj fs) "data" = Js.obj dfs →
      jsField (Js.obj dfs) "conversionId" = k →
      topicsOf (handlePgNotification "conversion_message_changes" (Js.obj fs)).1 =
        (if truthy k then ["conversion-messages", "conversion-" ++ jsToString k]
         else ["conversion-messages"]) ∧
      topicsOf (handlePgNotification "conversion_step_changes" (Js.obj fs)).1 =
        (if truthy k then ["conversion-steps", "conversion-" ++ jsToString k]
         else ["conversion-steps"]) := by
  intro fs dfs k hdata hk
  constructor
  · rw [handlePgNotification_message, hdata, handleConversionMessageChange_fst, hk]
    cases hkt : truthy k <;> simp [topicsOf, hkt]
  · rw [handlePgNotification_step, hdata, handleConversionStepChange_fst, hk]
    cases hkt : truthy k <;> simp [topicsOf, hkt]

/-- C1 amended, witnessed at a concrete notification with a truthy
owning id `"c1"`: both kinds route to the static topic plus
`conversion-c1`. -/
theorem c1_derived_topic_routing_witness :
    topicsOf (handlePgNotification "conversion_message_changes"
      (Js.obj [("data", Js.obj [("conversionId", Js.str "c1")])])).1 =
      ["conversion-messages", "conversion-c1"] ∧
    topicsOf (handlePgNotification "conversion_step_changes"
      (Js.obj [("data", Js.obj [("conversionId", Js.str "c1")])])).1 =
      ["conversion-steps", "conversion-c1"] := by
  have h := c1_derived_topic_routing
    [("data", Js.obj [("conversionId", Js.str "c1")])]
    [("conversionId", Js.str "c1")] (Js.str "c1") rfl rfl
  simpa [show truthy (Js.str "c1") = true from rfl] using h

/-!
Claim C2.
-/

/-- C2 (confirmed): every `conversion_changes` notification, whatever
the fields of its decoded payload — in particular even when a
`conversionId` is present — is broadcast to exactly the one static
topic `conversions`; `handleConversionChange` never derives a
per-entity topic and never throws. -/
theorem c2_conversion_changes_static_only :
    ∀ fs : List (String × Js),
      handlePgNotification "conversion_changes" (Js.obj fs) =
        ([{ target := EmitTarget.room "conversions",
            eventName := "postgres_changes",
            payload := changePayload (jsField (Js.obj fs) "operation") "Conversion"
              (jsField (Js.obj fs) "data") }], false) ∧
      topicsOf (handlePgNotification "conversion_changes" (Js.obj fs)).1 =
        ["conversions"] := by
  intro fs
  exact ⟨rfl, rfl⟩

/-!
Claim C3.
-/

/-- C3 counterexample: on the unknown-channel fallback emission path, a
DELETE notification is emitted with `new` equal to the decoded data
(not null) and `old` equal to null (though the operation is not
INSERT) — the fallback always emits `new: data, old: null`, so the
claimed new/old discipline fails on that path. -/
theorem c3_fallback_cex :
    (handlePgNotification "custom_channel" c3Payload).1 =
      [{ target := EmitTarget.room "custom_channel"
         eventName := "postgres_changes"
         payload := EmitPayload.pgChange (Js.str "DELETE") "public" (Js.str "unknown")
           (Js.obj [("x", Js.str "1")]) Js.null (some "custom_channel") }] ∧
    Js.obj [("x", Js.str "1")] ≠ Js.null :=
  ⟨rfl, fun h => Js.noConfusion h⟩

/-- C3 amended: on the three recognized conversion channels every
emitted change-delivery record has `new = null` if the operation is
DELETE and otherwise the decoded data, and `old = null` if the
operation is INSERT and otherwise the decoded data (so an UPDATE
carries the data in both); the unknown-channel fallback, however,
always emits `new` equal to the decoded data and `old` equal to null,
regardless of the operation. -/
theorem c3_new_old_null_discipline :
    (∀ (fs : List (String × Js)) (ch : String) (e : Emit),
      (ch = "conversion_message_changes" ∨ ch = "conversion_changes" ∨
        ch = "conversion_step_changes") →
      e ∈ (handlePgNotification ch (Js.obj fs)).1 →
      emitNew e = some (if isStrEq (jsField (Js.obj fs) "operation") "DELETE"
          then Js.null else jsField (Js.obj fs) "data") ∧
      emitOld e = some (if isStrEq (jsField (Js.obj fs) "operation") "INSERT"
          then Js.null else jsField (Js.obj fs) "data")) ∧
    (∀ (fs : List (String × Js)) (ch : String) (e : Emit),
      ch ∉ channelNames →
      e ∈ (handlePgNotification ch (Js.obj fs)).1 →
      emitNew e = some (jsField (Js.obj fs) "data") ∧
      emitOld e = some Js.null) := by
  constructor
  · intro fs ch e hch he
    rcases hch with rfl | rfl | rfl
    · rw [handlePgNotification_message, handleConversionMessageChange_fst] at he
      rcases List.mem_cons.mp he with rfl | he2
      · exact ⟨rfl, rfl⟩
      · cases hkt : truthy (jsField (jsField (Js.obj fs) "data") "conversionId") <;>
          rw [hkt] at he2 <;> simp at he2
        subst he2
        exact ⟨rfl, rfl⟩
    · replace he := List.mem_singleton.mp he
      subst he
      exact ⟨rfl, rfl⟩
    · rw [handlePgNotification_step, handleConversionStepChange_fst] at he
      rcases List.mem_cons.mp he with rfl | he2
      · exact ⟨rfl, rfl⟩
      · cases hkt : truthy (jsField (jsField (Js.obj fs) "data") "conversionId") <;>
          rw [hkt] at he2 <;> simp at he2
        subst he2
        exact ⟨rfl, rfl⟩
  · intro fs ch e hch he
    simp [channelNames, not_or] at hch
    obtain ⟨h1, h2, h3, h4⟩ := hch
    simp only [handlePgNotification, if_neg h1, if_neg h2, if_neg h3, if_neg h4] at he
    replace he := List.mem_singleton.mp he
    subst he
    exact ⟨rfl, rfl⟩

/-- C3 amended, witnessed: a recognized-channel UPDATE with an owning
id carries the data in both `new` and `old` on the static-topic
emission, and a fallback UPDATE still carries `old = null`. -/
theorem c3_new_old_null_discipline_witness :
    (emitNew { target := EmitTarget.room "conversions",
               eventName := "postgres_changes",
               payload := changePayload (Js.str "UPDATE") "Conversion"
                 (Js.obj [("id", Js.str "s1")]) } =
        some (Js.obj [("id", Js.str "s1")]) ∧
     emitOld { target := EmitTarget.room "conversions",
               eventName := "postgres_changes",
               payload := changePayload (Js.str "UPDATE") "Conversion"
                 (Js.obj [("id", Js.str "s1")]) } =
        some (Js.obj [("id", Js.str "s1")])) ∧
    (emitNew { target := EmitTarget.room "another_channel",
               eventName := "postgres_changes",
               payload := EmitPayload.pgChange (Js.str "UPDATE") "public"
                 (Js.str "unknown") (Js.obj [("id", Js.str "s1")]) Js.null
                 (some "another_channel") } =
        some (Js.obj [("id", Js.str "s1")]) ∧
     emitOld { target := EmitTarget.room "another_channel",
               eventName := "postgres_changes",
               payload := EmitPayload.pgChange (Js.str "UPDATE") "public"
                 (Js.str "unknown") (Js.obj [("id", Js.str "s1")]) Js.null
                 (some "another_channel") } =
        some Js.null) := by
  constructor
  · have h := c3_new_old_null_discipline.1
      [("operation", Js.str "UPDATE"), ("data", Js.obj [("id", Js.str "s1")])]
      "conversion_changes" _ (Or.inr (Or.inl rfl)) (List.mem_singleton.mpr rfl)
    simpa using h
  · have h := c3_new_old_null_discipline.2
      [("operation", Js.str "UPDATE"), ("data", Js.obj [("id", Js.str "s1")])]
      "another_channel" _ (by decide) (List.mem_singleton.mpr rfl)
    simpa using h

/-!
Claim C4.
-/

/-- C4 (confirmed): when `JSON.parse` fails on a notification payload,
the listener's try/catch absorbs the throw — the result is no emission
and a logged diagnostic, never an exception escaping the handler — and
the processing of every subsequent notification is exactly what it
would have been without the bad one: the listener is a per-message map,
so a following well-formed notification is decoded, routed and
broadcast normally. -/
theorem c4_bad_payload_dropped :
    ∀ (parse : String → Except Unit Js) (m : RawMsg) (rest : List RawMsg),
      parse (effectivePayload m) = Except.error () →
      onNotification parse m = ([], true) ∧
      processAll parse (m :: rest) = ([], true) :: processAll parse rest := by
  intro parse m rest h
  have h1 : onNotification parse m = ([], true) := by
    unfold onNotification
    rw [h]
  exact ⟨h1, by simp [processAll, h1]⟩

/-- C4 witnessed at a concrete malformed payload followed by a valid
one on the same channel. -/
theorem c4_bad_payload_dropped_witness :
    onNotification parseW badMsg = ([], true) ∧
    processAll parseW [badMsg, goodMsg] = ([], true) :: processAll parseW [goodMsg] :=
  c4_bad_payload_dropped parseW badMsg [goodMsg] rfl

/-!
Claim C5.
-/

/-- C5 counterexample: a `conversion_changes` notification with a
missing `operation` is broadcast with `event` equal to JavaScript
`undefined` — the operation is forwarded verbatim, and the value
UNKNOWN demanded by the claim is not substituted on this (recognized)
channel. -/
theorem c5_no_unknown_on_known_channel_cex :
    (handlePgNotification "conversion_changes" c5Payload).1 =
      [{ target := EmitTarget.room "conversions", eventName := "postgres_changes",
         payload := EmitPayload.pgChange Js.undef "public" (Js.str "Conversion")
           (Js.obj []) (Js.obj []) none }] ∧
    Js.undef ≠ Js.str "UNKNOWN" :=
  ⟨rfl, fun h => Js.noConfusion h⟩

/-- C5 amended: a decoded notification is always routed and broadcast,
whatever its `operation` (never dropped); but the `operation` value is
forwarded verbatim on the recognized channels (JavaScript `undefined`
when the field is missing), and only the unknown-channel fallback
substitutes UNKNOWN — and only for a missing/falsy operation, an
unrecognized non-empty operation string passing through unchanged
there too. -/
theorem c5_operation_forwarding :
    (∀ (ch : String) (fs : List (String × Js)),
      (handlePgNotification ch (Js.obj fs)).1 ≠ []) ∧
    (∀ (fs : List (String × Js)) (ch : String) (e : Emit),
      (ch = "conversion_message_changes" ∨ ch = "conversion_changes" ∨
        ch = "conversion_step_changes") →
      e ∈ (handlePgNotification ch (Js.obj fs)).1 →
      emitEvent e = some (jsField (Js.obj fs) "operation")) ∧
    (∀ (fs : List (String × Js)) (ch : String) (e : Emit),
      ch ∉ channelNames →
      e ∈ (handlePgNotification ch (Js.obj fs)).1 →
      emitEvent e =
        some (if truthy (jsField (Js.obj fs) "operation")
              then jsField (Js.obj fs) "operation" else Js.str "UNKNOWN")) := by
  refine ⟨?_, ?_, ?_⟩
  · intro ch fs
    by_cases h1 : ch = "conversion_message_changes"
    · subst h1
      rw [handlePgNotification_message, handleConversionMessageChange_fst]
      simp
    · by_cases h2 : ch = "conversion_changes"
      · subst h2
        simp [handlePgNotification, handleConversionChange]
      · by_cases h3 : ch = "conversion_step_changes"
        · subst h3
          rw [handlePgNotification_step, handleConversionStepChange_fst]
          simp
        · by_cases h4 : ch = "test_channel"
          · subst h4
            simp [handlePgNotification]
          · simp only [handlePgNotification, if_neg h1, if_neg h2, if_neg h3, if_neg h4]
            simp
  · intro fs ch e hch he
    rcases hch with rfl | rfl | rfl
    · rw [handlePgNotification_message, handleConversionMessageChange_fst] at he
      rcases List.mem_cons.mp he with rfl | he2
      · rfl
      · cases hkt : truthy (jsField (jsField (Js.obj fs) "data") "conversionId") <;>
          rw [hkt] at he2 <;> simp at he2
        subst he2
        rfl
    · replace he := List.mem_singleton.mp he
      subst he
      rfl
    · rw [handlePgNotification_step, handleConversionStepChange_fst] at he
      rcases List.mem_cons.mp he with rfl | he2
      · rfl
      · cases hkt : truthy (jsField (jsField (Js.obj fs) "data") "conversionId") <;>
          rw [hkt] at he2 <;> simp at he2
        subst he2
        rfl
  · intro fs ch e hch he
    simp [channelNames, not_or] at hch
    obtain ⟨h1, h2, h3, h4⟩ := hch
    simp only [handlePgNotification, if_neg h1, if_neg h2, if_neg h3, if_neg h4] at he
    replace he := List.mem_singleton.mp he
    subst he
    rfl

/-- C5 amended, witnessed: with `operation` missing, the
`conversion_changes` broadcast still happens and carries `undefined`
verbatim, while an unknown channel substitutes UNKNOWN. -/
theorem c5_operation_forwarding_witness :
    (handlePgNotification "conversion_changes" c5Payload).1 ≠ [] ∧
    emitEvent { target := EmitTarget.room "conversions",
                eventName := "postgres_changes",
                payload := changePayload Js.undef "Conversion" (Js.obj []) } =
      some Js.undef ∧
    emitEvent { target := EmitTarget.room "mystery_channel",
                eventName := "postgres_changes",
                payload := EmitPayload.pgChange (Js.str "UNKNOWN") "public"
                  (Js.str "unknown") (Js.obj []) Js.null (some "mystery_channel") } =
      some (Js.str "UNKNOWN") := by
  refine ⟨c5_operation_forwarding.1 "conversion_changes" [("data", Js.obj [])], ?_, ?_⟩
  · have h := c5_operation_forwarding.2.1 [("data", Js.obj [])] "conversion_changes" _
      (Or.inr (Or.inl rfl)) (List.mem_singleton.mpr rfl)
    simpa using h
  · have h := c5_operation_forwarding.2.2 [("data", Js.obj [])] "mystery_channel" _
      (by decide) (List.mem_singleton.mpr rfl)
    simpa using h

/-!
Claim C10.
-/

/-- C10 (confirmed): a `test_channel` notification is emitted with
`io.emit` — the target is every connected client, no room at all — under
the event name `test_notification` (not `postgres_changes`), carrying
the parsed payload wrapped as a `message` field; in particular the set
of rooms broadcast to is empty. -/
theorem c10_test_channel_broadcast :
    ∀ fs : List (String × Js),
      handlePgNotification "test_channel" (Js.obj fs) =
        ([{ target := EmitTarget.all, eventName := "test_notification",
            payload := EmitPayload.testMsg (Js.obj fs) }], false) ∧
      topicsOf (handlePgNotification "test_channel" (Js.obj fs)).1 = [] := by
  intro fs
  exact ⟨rfl, rfl⟩

/-!
Claim C6.
-/

/-- C6 counterexample: from the Listening state reached by the
constructor, invoking `setupPgNotifications` again is not a no-op —
`connect()` rejects on the already-connected client, the catch logs the
failure and schedules a 5-second retry timer, so the resulting state
differs from the pre-invocation state (and the retry will fail and
reschedule again for as long as the connection is up). -/
theorem c6_not_noop_cex :
    (srvRun initSrvState actsListen).bind
        (fun s => srvStep (invokeSetup s) (SrvAct.runTask 0 true)) =
      some { clients := [{ phase := CPhase.connected, listens := channelNames,
                           notifHandlers := 1, errHandlers := 1 }],
             current := 0, tasks := [],
             timers := [{ kind := TimerKind.tSetup, delayMs := 5000 }],
             httpClosed := false, errorsLogged := 1 } ∧
    (srvRun initSrvState actsListen).bind
        (fun s => srvStep (invokeSetup s) (SrvAct.runTask 0 true)) ≠
      srvRun initSrvState actsListen := by
  exact ⟨by decide, by decide⟩

/-- C6 amended: invoking `setupPgNotifications` while the current
client is already Connecting or Listening (connected) registers no
duplicate channel and attaches no duplicate notification or error
listener — the client list is untouched, so a single source event is
still delivered once — but it is not a no-op: the rejected `connect()`
is caught, the error is logged, and one 5-second retry timer is
scheduled. -/
theorem c6_setup_reinvocation :
    ∀ (s : SrvState) (cur : ClientSt) (ok : Bool),
      s.clients.get? s.current = some cur →
      (cur.phase = CPhase.connecting ∨ cur.phase = CPhase.connected) →
      s.tasks = [] →
      srvStep (invokeSetup s) (SrvAct.runTask 0 ok) =
        some { s with
          tasks := [],
          timers := s.timers ++ [{ kind := TimerKind.tSetup, delayMs := 5000 }],
          errorsLogged := s.errorsLogged + 1 } := by
  intro s cur ok hcur hph htasks
  have hget : (invokeSetup s).tasks.get? 0 = some TaskPc.setupConnect := by
    simp [invokeSetup, htasks]
  have hcur2 : (invokeSetup s).clients.get? (invokeSetup s).current = some cur := hcur
  show srvStepTask (invokeSetup s) 0 ok = _
  unfold srvStepTask
  rw [hget, hcur2]
  rcases hph with h | h <;>
    simp [h, srvSchedule, invokeSetup, htasks]

/-- C6 amended, witnessed at the concrete Listening state. -/
theorem c6_setup_reinvocation_witness :
    srvStep (invokeSetup
        { clients := [{ phase := CPhase.connected, listens := channelNames,
                        notifHandlers := 1, errHandlers := 1 }],
          current := 0, tasks := [], timers := [], httpClosed := false,
          errorsLogged := 0 }) (SrvAct.runTask 0 true) =
      some { clients := [{ phase := CPhase.connected, listens := channelNames,
                           notifHandlers := 1, errHandlers := 1 }],
             current := 0, tasks := [],
             timers := [{ kind := TimerKind.tSetup, delayMs := 5000 }],
             httpClosed := false, errorsLogged := 1 } := by
  have h := c6_setup_reinvocation
    { clients := [{ phase := CPhase.connected, listens := channelNames,
                    notifHandlers := 1, errHandlers := 1 }],
      current := 0, tasks := [], timers := [], httpClosed := false,
      errorsLogged := 0 }
    { phase := CPhase.connected, listens := channelNames,
      notifHandlers := 1, errHandlers := 1 }
    true rfl (Or.inr rfl) rfl
  simpa using h

/-!
Claim C7.
-/

theorem timersAll5000_srvSchedule (k : TimerKind) (s : SrvState)
    (h : timersAll5000 s) : timersAll5000 (srvSchedule k s) := by
  intro t ht
  rcases List.mem_append.mp ht with h1 | h1
  · exact h t h1
  · rw [List.mem_singleton.mp h1]

theorem mem_of_mem_eraseIdx {α : Type} {l : List α} {i : Nat} {x : α}
    (h : x ∈ l.eraseIdx i) : x ∈ l := by
  induction l generalizing i with
  | nil => simp [List.eraseIdx] at h
  | cons a as ih =>
    cases i with
    | zero =>
      rw [List.eraseIdx] at h
      exact List.mem_cons_of_mem a h
    | succ n =>
      rw [List.eraseIdx] at h
      rcases List.mem_cons.mp h with h1 | h2
      · rw [h1]; exact List.mem_cons_self _ _
      · exact List.mem_cons_of_mem _ (ih h2)

/-- Running one task never schedules a timer with a delay other than
the fixed 5000 ms. -/
theorem timersAll5000_srvStepTask (s : SrvState) (i : Nat) (ok : Bool)
    (s2 : SrvState) (hs : timersAll5000 s) (h : srvStepTask s i ok = some s2) :
    timersAll5000 s2 := by
  unfold srvStepTask at h
  repeat' split at h
  all_goals
    first
      | exact Option.noConfusion h
      | (injection h with h2; subst h2;
         first
           | exact hs
           | exact timersAll5000_srvSchedule _ _ hs)

/-- Every step of the lifecycle preserves the fixed-delay property of
the pending timers. -/
theorem timersAll5000_srvStep (s : SrvState) (a : SrvAct) (s2 : SrvState)
    (hs : timersAll5000 s) (h : srvStep s a = some s2) : timersAll5000 s2 := by
  cases a with
  | runTask i ok => exact timersAll5000_srvStepTask s i ok s2 hs h
  | fireTimer i =>
    simp only [srvStep] at h
    split at h
    · exact Option.noConfusion h
    · injection h with h2
      subst h2
      intro t ht
      exact hs t (mem_of_mem_eraseIdx ht)
  | pgError cid =>
    simp only [srvStep] at h
    repeat' split at h
    all_goals
      first
        | exact Option.noConfusion h
        | (injection h with h2; subst h2; exact hs)
  | close ok =>
    cases ok <;> simp only [srvStep] at h <;> injection h with h2 <;>
      subst h2 <;> exact hs

/-- The fixed-delay property is preserved along any run. -/
theorem timersAll5000_srvRun :
    ∀ (acts : List SrvAct) (s s2 : SrvState), timersAll5000 s →
      srvRun s acts = some s2 → timersAll5000 s2 := by
  intro acts
  induction acts with
  | nil =>
    intro s s2 hs h
    unfold srvRun at h
    injection h with h2
    subst h2
    exact hs
  | cons a as ih =>
    intro s s2 hs h
    unfold srvRun at h
    cases hst : srvStep s a with
    | none => rw [hst] at h; exact Option.noConfusion h
    | some s1 =>
      rw [hst] at h
      exact ih s1 s2 (timersAll5000_srvStep s a s1 hs hst) h

/-- C7 counterexample: (a) immediately after a connection-level error
no reconnect timer exists at all — the error listener calls
`this.reconnectPg()` directly, so the first reconnect attempt is
already pending with no 5-second delay, contrary to the claimed
"schedules the reconnect attempt after a fixed 5-second delay"; and
(b) two error events give rise to two reconnect chains whose failures
leave two outstanding scheduled timers at once, contrary to the claimed
"only one outstanding scheduled reconnect at a time". -/
theorem c7_immediate_reconnect_cex :
    (srvRun initSrvState actsImmediate).map (fun s => (s.timers, s.tasks)) =
      some ([], [TaskPc.reconnectEnd]) ∧
    (srvRun initSrvState actsTwoTimers).map (fun s => s.timers) =
      some [{ kind := TimerKind.tSetup, delayMs := 5000 },
            { kind := TimerKind.tSetup, delayMs := 5000 }] := by
  exact ⟨by decide, by decide⟩

/-- C7 amended: in every reachable state all pending retry timers carry
the fixed 5000 ms delay (no backoff); a reconnect attempt whose connect
fails schedules exactly one new 5-second retry (indefinitely — firing a
timer always spawns another attempt, there is no retry cap); and a
connection-level error starts its reconnect attempts immediately, with
no timer involved — but overlapping error events can each start a
chain, so more than one retry timer can be outstanding. -/
theorem c7_reconnect_policy :
    ∀ s : SrvState, SrvReachable s →
      timersAll5000 s ∧
      (∀ (i cid : Nat) (c : ClientSt),
        s.tasks.get? i = some (TaskPc.setupAwaitConnect cid) →
        s.clients.get? cid = some c →
        srvStep s (SrvAct.runTask i false) =
          some (srvSchedule TimerKind.tSetup { s with tasks := s.tasks.eraseIdx i })) ∧
      (∀ (i : Nat) (t : SrvTimer), s.timers.get? i = some t →
        srvStep s (SrvAct.fireTimer i) =
          some { s with timers := s.timers.eraseIdx i,
                        tasks := s.tasks ++ [timerTask t.kind] }) ∧
      (∀ (cid : Nat) (c : ClientSt), s.clients.get? cid = some c →
        c.errHandlers ≥ 1 → c.phase = CPhase.connected →
        srvStep s (SrvAct.pgError cid) =
          some { s with
            tasks := s.tasks ++ List.replicate c.errHandlers TaskPc.reconnectEnd }) := by
  intro s hr
  refine ⟨?_, ?_, ?_, ?_⟩
  · obtain ⟨acts, hacts⟩ := hr
    refine timersAll5000_srvRun acts initSrvState s ?_ hacts
    intro t ht
    simp [initSrvState] at ht
  · intro i cid c hi hc
    show srvStepTask s i false = _
    simp only [srvStepTask, hi, hc]
  · intro i t ht
    simp only [srvStep]
    rw [ht]
  · intro cid c hc h1 h2
    simp only [srvStep, hc]
    rw [if_pos (show c.errHandlers ≥ 1 ∧ c.phase = CPhase.connected from ⟨h1, h2⟩)]

/-- C7 amended, witnessed at the reachable state `sAwaitW`: a failing
connect schedules exactly one 5000 ms retry timer. -/
theorem c7_reconnect_policy_witness :
    srvStep sAwaitW (SrvAct.runTask 0 false) =
      some (srvSchedule TimerKind.tSetup { sAwaitW with tasks := [] }) := by
  have h := (c7_reconnect_policy sAwaitW
    ⟨[SrvAct.runTask 0 true], by decide⟩).2.1 0 0
    { phase := CPhase.connecting, listens := [], notifHandlers := 0, errHandlers := 0 }
    rfl rfl
  exact h

/-!
Claim C8.
-/

/-- C8 counterexample: `close()` does not cancel the pending scheduled
reconnect — after the close the 5-second timer is still there, it still
fires, its reconnect attempt still executes, and (failing on the
released client) it schedules yet another retry: the reconnect loop
keeps scheduling and executing attempts after shutdown, contrary to the
claim. -/
theorem c8_close_no_cancel_cex :
    (srvRun initSrvState actsCloseA).map (fun s => (s.httpClosed, s.timers)) =
      some (true, [{ kind := TimerKind.tSetup, delayMs := 5000 }]) ∧
    (srvRun initSrvState actsCloseB).map
        (fun s => (s.httpClosed, s.timers, s.tasks, s.errorsLogged)) =
      some (true, [{ kind := TimerKind.tSetup, delayMs := 5000 }], [], 2) := by
  exact ⟨by decide, by decide⟩

/-- C8 amended: `close()` is safe from any state and never throws — a
rejected `pgClient.end()` is caught and only logged — and on success it
ends the current source client and closes the HTTP server; but in
neither outcome does it cancel pending timers or pending reconnect
continuations: both survive the close untouched. -/
theorem c8_close_behavior :
    ∀ s : SrvState,
      srvStep s (SrvAct.close true) =
        some { s with clients := endClientAt s.clients s.current, httpClosed := true } ∧
      srvStep s (SrvAct.close false) =
        some { s with errorsLogged := s.errorsLogged + 1 } ∧
      (∀ (ok : Bool) (s2 : SrvState), srvStep s (SrvAct.close ok) = some s2 →
        s2.timers = s.timers ∧ s2.tasks = s.tasks) := by
  intro s
  refine ⟨rfl, rfl, ?_⟩
  intro ok s2 h
  cases ok <;> simp only [srvStep] at h <;> injection h with h2 <;>
    subst h2 <;> exact ⟨rfl, rfl⟩

/-- C8 amended, witnessed at the constructor state: closing ends the
current client while preserving the pending task list and timers. -/
theorem c8_close_behavior_witness :
    (srvStep initSrvState (SrvAct.close true)).map (fun s2 => (s2.timers, s2.tasks)) =
      some (initSrvState.timers, initSrvState.tasks) := by
  have h := c8_close_behavior initSrvState
  obtain ⟨ht, hk⟩ := h.2.2 true _ h.1
  rw [h.1]
  simp only [Option.map_some', ht, hk]

/-!
Claim C9.
-/

/-- C9 counterexample: after two overlapping error-triggered reconnect
attempts, the reachable state has two clients with live connections at
once — the at-most-one-live-connection invariant fails. -/
theorem c9_two_live_connections_cex :
    (srvRun initSrvState actsTwoConnections).map
        (fun s => (countConnected s, s.clients.map (fun c => c.phase))) =
      some (2, [CPhase.ended, CPhase.connected, CPhase.connected]) := by
  decide

/-- C9 amended: within a single reconnect attempt the release does come
first — resuming `reconnectPg` at its `await this.pgClient.end()` ends
the current client while creating no new one, and only the subsequent
step constructs the replacement client, which starts fresh (not live);
but the global invariant is not maintained across overlapping attempts
(see the counterexample trace). -/
theorem c9_reconnect_release_order :
    ∀ (s : SrvState) (i : Nat) (cur : ClientSt),
      s.tasks.get? i = some TaskPc.reconnectEnd →
      s.clients.get? s.current = some cur →
      srvStep s (SrvAct.runTask i true) =
        some { s with
          clients := s.clients.set s.current { cur with phase := CPhase.ended },
          tasks := s.tasks.set i TaskPc.reconnectNew } ∧
      (∀ j : Nat, s.tasks.get? j = some TaskPc.reconnectNew →
        srvStep s (SrvAct.runTask j true) =
          some { s with
            clients := s.clients ++ [newClient],
            current := s.clients.length,
            tasks := s.tasks.set j TaskPc.setupConnect }) := by
  intro s i cur hi hcur
  constructor
  · show srvStepTask s i true = _
    simp only [srvStepTask, hi, hcur]
  · intro j hj
    show srvStepTask s j true = _
    simp only [srvStepTask, hj]

/-- C9 amended, witnessed at `sRecW`: the end step releases the current
client without creating one, and the creation step adds a fresh
client. -/
theorem c9_reconnect_release_order_witness :
    srvStep sRecW (SrvAct.runTask 0 true) =
      some { sRecW with
        clients := [{ phase := CPhase.ended, listens := channelNames,
                      notifHandlers := 1, errHandlers := 1 }],
        tasks := [TaskPc.reconnectNew, TaskPc.reconnectNew] } ∧
    srvStep sRecW (SrvAct.runTask 1 true) =
      some { sRecW with
        clients := sRecW.clients ++ [newClient], current := 1,
        tasks := [TaskPc.reconnectEnd, TaskPc.setupConnect] } := by
  have h := c9_reconnect_release_order sRecW 0
    { phase := CPhase.connected, listens := channelNames,
      notifHandlers := 1, errHandlers := 1 } rfl rfl
  exact ⟨h.1, h.2 1 rfl⟩
